import Mathlib

/-!
# Record store of the O&G operations prototype (`src/app.py`)

A shallow embedding of the record-store subsystem of the application:
CSV-backed tabular collections (pandas DataFrames), the safe loader
`_safe_read_csv` / `load_csv`, the atomic writer `save_csv`, the id
allocator `next_sequential_id`, the seeding routine `seed_if_missing`,
and the page handlers that create rows and apply status transitions
(Notificaciones, Rondas, PTW/OT, Incidentes).

Rows are modelled as association lists from column names to cells, the
direct analogue of the Python dicts the handlers build; a DataFrame is a
column schema plus a list of rows.  Machine floats in the source carry
exact decimal values written in the code, so numeric cells are modelled
as rationals.  The file system is a total map from path strings to
optional file contents, and `save_csv` is modelled both as its final
state and as the list of intermediate states its three steps pass
through (write temp, temp fully written, atomic replace).
-/

namespace FFCC

/-- A single cell of a pandas DataFrame as this application uses them:
an (exact) numeric value, a string, or a boolean (`en_rango`). -/
inductive Cell
  | num (q : ℚ)
  | str (s : String)
  | bool (b : Bool)
deriving DecidableEq

/-- Value of a run of decimal digit characters; `none` when empty or when
a non-digit occurs (mirrors `pd.to_numeric(..., errors="coerce")`
rejecting the token). -/
def digitsVal (cs : List Char) : Option Nat :=
  match cs with
  | [] => none
  | _ =>
    if cs.all (fun c => c.isDigit) then
      some (cs.foldl (fun a c => a * 10 + (c.toNat - 48)) 0)
    else none

/-- Parse an unsigned decimal numeral (integer part, optional fractional
part) into a rational. -/
def parseUnsigned (cs : List Char) : Option ℚ :=
  let w := cs.takeWhile (fun c => c != '.')
  let rest := cs.dropWhile (fun c => c != '.')
  match rest with
  | [] => (digitsVal w).map (fun n => (n : ℚ))
  | _ :: f =>
    match digitsVal w, digitsVal f with
    | some n, some m => some ((n : ℚ) + (m : ℚ) / ((10 : ℚ) ^ f.length))
    | _, _ => none

/-- Numeric value of a string, as `pd.to_numeric(s, errors="coerce")`
sees it: optional leading minus sign, then a decimal numeral;
anything else coerces to NaN, modelled as `none`. -/
def strToNumeric (s : String) : Option ℚ :=
  match s.toList with
  | [] => none
  | '-' :: cs => (parseUnsigned cs).map (fun q => -q)
  | cs => parseUnsigned cs

/-- `pd.to_numeric(cell, errors="coerce")` on one cell: numbers pass
through, strings are parsed, booleans coerce to 1/0, failures are NaN
(`none`). -/
def Cell.toNumeric : Cell → Option ℚ
  | .num q => some q
  | .str s => strToNumeric s
  | .bool b => some (if b then 1 else 0)

/-- A row: ordered association list of column name to cell, mirroring
the Python dicts the handlers build and the rows of a DataFrame. -/
abbrev Row := List (String × Cell)

/-- A tabular collection: column schema plus rows (a pandas DataFrame). -/
structure DataFrame where
  cols : List String
  rows : List Row
deriving DecidableEq

/-- The empty DataFrame `pd.DataFrame()`. -/
def DataFrame.emptyDF : DataFrame := ⟨[], []⟩

/-- Read a cell of a row by column name (first binding wins; the empty
string when the row does not bind the column). -/
def getCell : Row → String → Cell
  | [], _ => .str ""
  | (k, v) :: t, c => if k = c then v else getCell t c

/-- Does the row bind the column? -/
def hasKey : Row → String → Bool
  | [], _ => false
  | (k, _) :: t, c => k = c || hasKey t c

/-- Overwrite the value bound to a column (the element-wise effect of a
pandas `df.loc[mask, col] = v` assignment on one selected row). -/
def setCell : Row → String → Cell → Row
  | [], _, _ => []
  | (k, w) :: t, c, v =>
    if k = c then (c, v) :: setCell t c v else (k, w) :: setCell t c v

/-- The numeric values `pd.to_numeric(df[c], errors="coerce")` retains
(NaNs dropped, as `.max()` skips them). -/
def colNumeric (df : DataFrame) (c : String) : List ℚ :=
  df.rows.filterMap (fun r => (getCell r c).toNumeric)

/-- Maximum of a list of rationals, `none` on the empty list (the NaN
that `.max()` returns on an all-NaN series). -/
def listMax? : List ℚ → Option ℚ
  | [] => none
  | q :: qs => some (qs.foldl max q)

/-- Python `int(...)` on an exact numeric value: truncation toward zero. -/
def pyInt (q : ℚ) : ℤ :=
  if 0 ≤ q then ⌊q⌋ else ⌈q⌉

/-- `next_sequential_id(df, id_col)` from `src/app.py`:
returns 1 when the frame is empty or lacks the column, otherwise
`int(pd.to_numeric(df[id_col], errors="coerce").max()) + 1`, falling
back to 1 when the max is NaN (no value parsed, so `int` raises). -/
def next_sequential_id (df : DataFrame) (id_col : String) : ℤ :=
  if df.rows.isEmpty || !(df.cols.contains id_col) then 1
  else
    match listMax? (colNumeric df id_col) with
    | none => 1
    | some m => pyInt m + 1

/-- Well-formedness of a loaded DataFrame: every row binds exactly the
schema columns, in order (as pandas guarantees for a parsed CSV). -/
def Aligned (df : DataFrame) : Prop :=
  ∀ r ∈ df.rows, r.map Prod.fst = df.cols

instance (df : DataFrame) : Decidable (Aligned df) := by
  unfold Aligned; infer_instance

/-- The id cells of a frame, in row order. -/
def idCells (df : DataFrame) : List Cell := df.rows.map (fun r => getCell r "id")

/-- The id-uniqueness invariant of an id-bearing collection: all id
cells pairwise distinct. -/
def UniqueIds (df : DataFrame) : Prop := (idCells df).Pairwise (fun a b => a ≠ b)

instance (df : DataFrame) : Decidable (UniqueIds df) := by
  unfold UniqueIds; infer_instance

/-! ## File-system model and persistence -/

/-- Contents of a file on disk: either a well-formed serialized table
(what `DataFrame.to_csv` writes) or unparseable bytes. -/
inductive FileData
  | table (cols : List String) (rows : List Row)
  | garbage (s : String)
deriving DecidableEq

/-- A file either exists with contents or does not exist. -/
abbrev File := Option FileData

/-- The file system: contents by path string. -/
abbrev FileSys := String → File

/-- Write a file (creating or overwriting it). -/
def writeFile (fs : FileSys) (p : String) (d : FileData) : FileSys :=
  fun q => if q = p then some d else fs q

/-- Delete a file. -/
def removeFile (fs : FileSys) (p : String) : FileSys :=
  fun q => if q = p then none else fs q

/-- `path.with_suffix(path.suffix + ".tmp")`: on the `.csv` data paths
of this application this appends `.tmp` to the full path. -/
def tmpPath (p : String) : String := p ++ ".tmp"

/-- Serialization of a frame, `df.to_csv(..., index=False)`. -/
def serialize (df : DataFrame) : FileData := .table df.cols df.rows

/-- Final state of `save_csv(df, path)` from `src/app.py`: the frame is
serialized to the temporary path, which is then renamed over the final
path (`tmp.replace(path)`, an atomic replace). -/
def save_csv (fs : FileSys) (df : DataFrame) (p : String) : FileSys :=
  removeFile (writeFile (writeFile fs (tmpPath p) (serialize df)) p (serialize df)) (tmpPath p)

/-- Every file-system state `save_csv(df, path)` passes through, in
order: before anything happened; while `to_csv` is writing the
temporary file (a crash there can leave arbitrary bytes `mid` in it);
after the temporary file is completely written; after the atomic
rename of the temporary file over the final path. -/
def save_csv_states (fs : FileSys) (df : DataFrame) (p : String) (mid : FileData) :
    List FileSys :=
  [fs,
   writeFile fs (tmpPath p) mid,
   writeFile fs (tmpPath p) (serialize df),
   save_csv fs df p]

/-- `pd.read_csv` on the contents of an existing file: well-formed
bytes parse back to the frame; anything else raises (`none`). -/
def parseCsv : FileData → Option DataFrame
  | .table cols rows => some ⟨cols, rows⟩
  | .garbage _ => none

/-- `_safe_read_csv(path)` from `src/app.py`, a total function (it
never raises): a missing file loads as the empty frame with no
warning; contents that fail to parse are caught, a `st.warning` is
shown (the Boolean flag) and the empty frame is returned. -/
def safe_read_csv (f : File) : DataFrame × Bool :=
  match f with
  | none => (DataFrame.emptyDF, false)
  | some d =>
    match parseCsv d with
    | some df => (df, false)
    | none => (DataFrame.emptyDF, true)

/-- `load_csv(path)`: `_safe_read_csv` behind a per-session cache that
every writer invalidates (`st.cache_data.clear()`), so its value is
the underlying read of the current file system. -/
def load_csv (fs : FileSys) (p : String) : DataFrame × Bool :=
  safe_read_csv (fs p)

/-! ## Seed data and `seed_if_missing` -/

def F_USUARIOS : String := "data/usuarios.csv"
def F_ACTIVOS : String := "data/activos.csv"
def F_NOTIF : String := "data/notificaciones.csv"
def F_RONDAS_PLT : String := "data/rondas_plantillas.csv"
def F_RONDAS_RUN : String := "data/rondas_ejecuciones.csv"
def F_INCIDENTES : String := "data/incidentes.csv"
def F_PTWOT : String := "data/ptw_ot.csv"

def usuariosSeed : DataFrame :=
  ⟨["user_id", "nombre", "rol", "area"],
   [[("user_id", .str "op1"), ("nombre", .str "Operario 1"), ("rol", .str "Operario"), ("area", .str "Operación Área B")],
    [("user_id", .str "op2"), ("nombre", .str "Operario 2"), ("rol", .str "Operario"), ("area", .str "Operación Área A")],
    [("user_id", .str "sup1"), ("nombre", .str "Supervisor 1"), ("rol", .str "Supervisor"), ("area", .str "Sala Control")],
    [("user_id", .str "hse1"), ("nombre", .str "HSE 1"), ("rol", .str "HSE"), ("area", .str "HSE")]]⟩

def activosSeed : DataFrame :=
  ⟨["tag", "descripcion", "area"],
   [[("tag", .str "V-210"), ("descripcion", .str "Válvula de control línea de producción"), ("area", .str "Área B")],
    [("tag", .str "P-101"), ("descripcion", .str "Bomba de transferencia"), ("area", .str "Área A")],
    [("tag", .str "TK-1203"), ("descripcion", .str "Tanque crudo estabilizado"), ("area", .str "Tanques")],
    [("tag", .str "K-301"), ("descripcion", .str "Compresor gas baja presión"), ("area", .str "Compresión")]]⟩

def notifCols : List String :=
  ["id", "ts_creacion", "tag", "titulo", "motivo", "prioridad", "estado",
   "asignado_a", "ts_recibida", "ts_cerrada", "evidencia"]

def notifSeed (now : String) : DataFrame :=
  ⟨notifCols,
   [[("id", .num 1), ("ts_creacion", .str now), ("tag", .str "V-210"), ("titulo", .str "Chequear válvula V-210"),
     ("motivo", .str "Sobrepresión"), ("prioridad", .str "P1"), ("estado", .str "Pendiente"),
     ("asignado_a", .str "Operario 1"), ("ts_recibida", .str ""), ("ts_cerrada", .str ""), ("evidencia", .str "")],
    [("id", .num 2), ("ts_creacion", .str now), ("tag", .str "P-101"), ("titulo", .str "Verificar sello mecánico"),
     ("motivo", .str "Goteo observado"), ("prioridad", .str "P2"), ("estado", .str "Pendiente"),
     ("asignado_a", .str "Operario 2"), ("ts_recibida", .str ""), ("ts_cerrada", .str ""), ("evidencia", .str "")]]⟩

def rondasPltSeed : DataFrame :=
  ⟨["plantilla", "tag", "variable", "lim_inf", "lim_sup"],
   [[("plantilla", .str "Ronda Compresores"), ("tag", .str "K-301"), ("variable", .str "Presión succión [bar]"), ("lim_inf", .num 2), ("lim_sup", .num 5)],
    [("plantilla", .str "Ronda Compresores"), ("tag", .str "K-301"), ("variable", .str "Temperatura carcasa [°C]"), ("lim_inf", .num 20), ("lim_sup", .num 80)],
    [("plantilla", .str "Ronda Tanques"), ("tag", .str "TK-1203"), ("variable", .str "Nivel [%]"), ("lim_inf", .num 10), ("lim_sup", .num 85)],
    [("plantilla", .str "Ronda Tanques"), ("tag", .str "TK-1203"), ("variable", .str "Temperatura [°C]"), ("lim_inf", .num 10), ("lim_sup", .num 60)]]⟩

def rondasRunCols : List String :=
  ["id", "ts", "plantilla", "tag", "variable", "valor", "en_rango", "operario"]

def rondasRunSeed : DataFrame := ⟨rondasRunCols, []⟩

def incidentesSeed (now : String) : DataFrame :=
  ⟨["id", "ts", "tag", "titulo", "severidad", "descripcion", "reportado_por", "estado"],
   [[("id", .num 1), ("ts", .str now), ("tag", .str "V-210"), ("titulo", .str "Near Miss por sobrepresión"),
     ("severidad", .str "Medio"), ("descripcion", .str "Se detecta lectura por encima del umbral"),
     ("reportado_por", .str "Operario 1"), ("estado", .str "Abierto")]]⟩

def ptwSeed (now : String) : DataFrame :=
  ⟨["id", "ts_solicitud", "tipo", "solicitante", "area", "estado", "aprob_hse", "ts_cierre", "adjuntos"],
   [[("id", .num 1), ("ts_solicitud", .str now), ("tipo", .str "Trabajo caliente"), ("solicitante", .str "Supervisor 1"),
     ("area", .str "Área B"), ("estado", .str "Borrador"), ("aprob_hse", .str "No"), ("ts_cierre", .str ""), ("adjuntos", .str "")]]⟩

/-- One `if not path.exists(): save_csv(seed, path)` block of
`seed_if_missing`. -/
def seedOne (fs : FileSys) (p : String) (df : DataFrame) : FileSys :=
  if fs p = none then save_csv fs df p else fs

/-- `seed_if_missing()` from `src/app.py`; `now` abstracts the
`now_iso()` timestamps written into the seed rows. -/
def seed_if_missing (now : String) (fs : FileSys) : FileSys :=
  seedOne (seedOne (seedOne (seedOne (seedOne (seedOne (seedOne
    fs F_USUARIOS usuariosSeed)
    F_ACTIVOS activosSeed)
    F_NOTIF (notifSeed now))
    F_RONDAS_PLT rondasPltSeed)
    F_RONDAS_RUN rondasRunSeed)
    F_INCIDENTES (incidentesSeed now))
    F_PTWOT (ptwSeed now)

/-! ## Page handlers -/

/-- Append one row at the end:
`pd.concat([df, pd.DataFrame([row])], ignore_index=True)`. -/
def appendRow (df : DataFrame) (r : Row) : DataFrame :=
  ⟨df.cols, df.rows ++ [r]⟩

/-- The dict built by the "Crear notificación" handler. -/
def notifNewRow (new_id : ℤ) (now tag titulo motivo prioridad asignado : String) : Row :=
  [("id", .num (new_id : ℚ)), ("ts_creacion", .str now), ("tag", .str tag),
   ("titulo", .str titulo), ("motivo", .str motivo), ("prioridad", .str prioridad),
   ("estado", .str "Pendiente"), ("asignado_a", .str asignado),
   ("ts_recibida", .str ""), ("ts_cerrada", .str ""), ("evidencia", .str "")]

/-- "Crear notificación": allocate the next id, append the new row,
save, clear the cache; returns the new frame, the new file system and
the assigned id. -/
def crearNotificacion (fs : FileSys) (notifs : DataFrame)
    (now tag titulo motivo prioridad asignado : String) :
    DataFrame × FileSys × ℤ :=
  let new_id := next_sequential_id notifs "id"
  let notifs2 := appendRow notifs (notifNewRow new_id now tag titulo motivo prioridad asignado)
  (notifs2, save_csv fs notifs2 F_NOTIF, new_id)

/-- Effect of the "Aplicar cambio" block on one selected row: set the
new status; stamp `ts_recibida` when the new status is "Recibida" and
`ts_cerrada` when it is "Completada"; overwrite `evidencia` only when
the supplied string is non-empty (Python truthiness of `evidencia`). -/
def updateNotifRow (nuevo evidencia now : String) (r : Row) : Row :=
  let r1 := setCell r "estado" (.str nuevo)
  let r2 := if nuevo = "Recibida" then setCell r1 "ts_recibida" (.str now) else r1
  let r3 := if nuevo = "Completada" then setCell r2 "ts_cerrada" (.str now) else r2
  if evidencia ≠ "" then setCell r3 "evidencia" (.str evidencia) else r3

/-- Does a row's id cell equal the selected integer id, as the pandas
element-wise comparison `df["id"] == sel_id` decides it (a string cell
never equals an integer; a boolean compares as 1/0)? -/
def matchesId (r : Row) (k : ℤ) : Bool :=
  match getCell r "id" with
  | .num q => q == (k : ℚ)
  | .str _ => false
  | .bool b => (if b then (1 : ℚ) else 0) == (k : ℚ)

/-- "Aplicar cambio" (Notificaciones): update every row whose id
matches and save; when no row matches, report "ID no encontrado"
(the `false` flag) and touch neither the frame nor the file system. -/
def aplicarCambioNotif (fs : FileSys) (notifs : DataFrame) (sel_id : ℤ)
    (nuevo evidencia now : String) : DataFrame × FileSys × Bool :=
  if notifs.rows.any (fun r => matchesId r sel_id) then
    let notifs2 : DataFrame :=
      ⟨notifs.cols, notifs.rows.map (fun r =>
        if matchesId r sel_id then updateNotifRow nuevo evidencia now r else r)⟩
    (notifs2, save_csv fs notifs2 F_NOTIF, true)
  else (notifs, fs, false)

/-- Effect of the PTW "Aplicar" block on one selected row: set the new
status and the HSE-approval flag; stamp `ts_cierre` when the new
status is "Cerrado". -/
def updatePtwRow (nuevo aprob_hse now : String) (r : Row) : Row :=
  let r1 := setCell r "estado" (.str nuevo)
  let r2 := setCell r1 "aprob_hse" (.str aprob_hse)
  if nuevo = "Cerrado" then setCell r2 "ts_cierre" (.str now) else r2

/-- "Aplicar" (PTW/OT): update every row whose id matches and save;
when no row matches, report "ID no encontrado" and touch nothing. -/
def aplicarCambioPtw (fs : FileSys) (ptwot : DataFrame) (idp : ℤ)
    (nuevo aprob_hse now : String) : DataFrame × FileSys × Bool :=
  if ptwot.rows.any (fun r => matchesId r idp) then
    let p2 : DataFrame :=
      ⟨ptwot.cols, ptwot.rows.map (fun r =>
        if matchesId r idp then updatePtwRow nuevo aprob_hse now r else r)⟩
    (p2, save_csv fs p2 F_PTWOT, true)
  else (ptwot, fs, false)

/-- The dict built by "Reportar incidente". -/
def incidenteNewRow (new_id : ℤ) (now tag titulo severidad descripcion reportado : String) : Row :=
  [("id", .num (new_id : ℚ)), ("ts", .str now), ("tag", .str tag), ("titulo", .str titulo),
   ("severidad", .str severidad), ("descripcion", .str descripcion),
   ("reportado_por", .str reportado), ("estado", .str "Abierto")]

/-- "Reportar incidente": allocate the next id, append, save. -/
def reportarIncidente (fs : FileSys) (incidentes : DataFrame)
    (now tag titulo severidad descripcion reportado : String) :
    DataFrame × FileSys × ℤ :=
  let new_id := next_sequential_id incidentes "id"
  let inc2 := appendRow incidentes (incidenteNewRow new_id now tag titulo severidad descripcion reportado)
  (inc2, save_csv fs inc2 F_INCIDENTES, new_id)

/-- The dict built by "Crear PTW". -/
def ptwNewRow (new_id : ℤ) (now tipo solicitante area : String) : Row :=
  [("id", .num (new_id : ℚ)), ("ts_solicitud", .str now), ("tipo", .str tipo),
   ("solicitante", .str solicitante), ("area", .str area), ("estado", .str "Borrador"),
   ("aprob_hse", .str "No"), ("ts_cierre", .str ""), ("adjuntos", .str "")]

/-- "Crear PTW": allocate the next id, append, save. -/
def crearPtw (fs : FileSys) (ptwot : DataFrame) (now tipo solicitante area : String) :
    DataFrame × FileSys × ℤ :=
  let new_id := next_sequential_id ptwot "id"
  let p2 := appendRow ptwot (ptwNewRow new_id now tipo solicitante area)
  (p2, save_csv fs p2 F_PTWOT, new_id)

/-- One row of a round template (`rondas_plantillas`), as the Rondas
page iterates the selected subset. -/
structure PlantillaRow where
  tag : String
  varName : String
  lim_inf : ℚ
  lim_sup : ℚ
deriving DecidableEq

/-- The dict the Rondas page builds for template row `idx` of the
submitted batch: its id is `next_sequential_id(rondas_run, "id") + idx`,
read from the round-execution collection as loaded at submission time. -/
def rondaNewRow (rondas_run : DataFrame) (sel_pl operario now : String)
    (idx : ℕ) (pr : PlantillaRow) (valor : ℚ) : Row :=
  [("id", .num ((next_sequential_id rondas_run "id" + idx : ℤ) : ℚ)),
   ("ts", .str now), ("plantilla", .str sel_pl), ("tag", .str pr.tag),
   ("variable", .str pr.varName), ("valor", .num valor),
   ("en_rango", .bool (decide (pr.lim_inf ≤ valor ∧ valor ≤ pr.lim_sup))),
   ("operario", .str operario)]

/-- The batch of dicts the Rondas page accumulates in `rows`: one per
template row of the selected plantilla (zipped with the values typed
into the form), enumerated from offset 0. -/
def rondaNewRows (rondas_run : DataFrame) (subset : List PlantillaRow)
    (valores : List ℚ) (sel_pl operario now : String) : List Row :=
  (subset.zip valores).enum.map
    (fun p => rondaNewRow rondas_run sel_pl operario now p.1 p.2.1 p.2.2)

/-- "Guardar ronda": append the whole batch and save (nothing happens
when the batch is empty). -/
def guardarRonda (fs : FileSys) (rondas_run : DataFrame) (subset : List PlantillaRow)
    (valores : List ℚ) (sel_pl operario now : String) : DataFrame × FileSys :=
  let rows := rondaNewRows rondas_run subset valores sel_pl operario now
  if rows.isEmpty then (rondas_run, fs)
  else
    let run2 : DataFrame := ⟨rondas_run.cols, rondas_run.rows ++ rows⟩
    (run2, save_csv fs run2 F_RONDAS_RUN)

/-! ## Basic lemmas about rows and cells -/

theorem getCell_setCell_ne (c c' : String) (v : Cell) (h : c' ≠ c) :
    ∀ r : Row, getCell (setCell r c v) c' = getCell r c' := by
  intro r
  induction r with
  | nil => rfl
  | cons p t ih =>
    obtain ⟨k, w⟩ := p
    by_cases hk : k = c
    · subst hk
      simp only [setCell, if_pos rfl, getCell]
      rw [if_neg (by intro hc; exact h hc.symm), if_neg (by intro hc; exact h hc.symm), ih]
    · simp only [setCell, if_neg hk, getCell]
      by_cases hk' : k = c'
      · rw [if_pos hk', if_pos hk']
      · rw [if_neg hk', if_neg hk', ih]

theorem getCell_setCell_self (c : String) (v : Cell) :
    ∀ r : Row, hasKey r c = true → getCell (setCell r c v) c = v := by
  intro r
  induction r with
  | nil => intro h; simp [hasKey] at h
  | cons p t ih =>
    obtain ⟨k, w⟩ := p
    intro h
    by_cases hk : k = c
    · subst hk
      simp [setCell, getCell]
    · simp only [hasKey, hk, decide_False, Bool.false_or] at h
      simp only [setCell, if_neg hk, getCell, if_neg hk]
      exact ih h

theorem keys_setCell (c : String) (v : Cell) :
    ∀ r : Row, (setCell r c v).map Prod.fst = r.map Prod.fst := by
  intro r
  induction r with
  | nil => rfl
  | cons p t ih =>
    obtain ⟨k, w⟩ := p
    by_cases hk : k = c
    · subst hk; simp [setCell, ih]
    · simp [setCell, hk, ih]

theorem hasKey_iff_mem (c : String) : ∀ r : Row, hasKey r c = true ↔ c ∈ r.map Prod.fst := by
  intro r
  induction r with
  | nil => simp [hasKey]
  | cons p t ih =>
    obtain ⟨k, w⟩ := p
    by_cases hk : k = c
    · subst hk; simp [hasKey]
    · simp [hasKey, hk, ih, Ne.symm hk]

theorem getCell_of_not_hasKey (c : String) :
    ∀ r : Row, hasKey r c = false → getCell r c = .str "" := by
  intro r
  induction r with
  | nil => intro _; rfl
  | cons p t ih =>
    obtain ⟨k, w⟩ := p
    intro h
    simp only [hasKey, Bool.or_eq_false_iff, decide_eq_false_iff_not] at h
    simp only [getCell, if_neg h.1]
    exact ih h.2

/-! ## Lemmas about the maximum and the id allocator -/

theorem le_foldl_max (l : List ℚ) : ∀ a : ℚ, a ≤ l.foldl max a := by
  induction l with
  | nil => intro a; exact le_refl a
  | cons x t ih =>
    intro a
    calc a ≤ max a x := le_max_left a x
    _ ≤ t.foldl max (max a x) := ih (max a x)

theorem mem_le_foldl_max (l : List ℚ) :
    ∀ a x : ℚ, x ∈ l → x ≤ l.foldl max a := by
  induction l with
  | nil => intro a x hx; simp at hx
  | cons y t ih =>
    intro a x hx
    rcases List.mem_cons.mp hx with h | h
    · subst h
      calc x ≤ max a x := le_max_right a x
      _ ≤ t.foldl max (max a x) := le_foldl_max t (max a x)
    · exact ih (max a y) x h

theorem le_listMax (l : List ℚ) (x m : ℚ) (hx : x ∈ l) (hm : listMax? l = some m) :
    x ≤ m := by
  cases l with
  | nil => simp at hx
  | cons y t =>
    simp only [listMax?, Option.some.injEq] at hm
    subst hm
    rcases List.mem_cons.mp hx with h | h
    · subst h; exact le_foldl_max t x
    · exact mem_le_foldl_max t y x h

theorem lt_pyInt_add_one (q : ℚ) : q < (pyInt q : ℚ) + 1 := by
  unfold pyInt
  by_cases h : 0 ≤ q
  · rw [if_pos h]; exact Int.lt_floor_add_one q
  · rw [if_neg h]
    have := Int.le_ceil q
    linarith

theorem strToNumeric_empty : strToNumeric "" = none := rfl

/-- If a row of an aligned frame has a numeric id value, that value is
strictly below the id the allocator hands out next. -/
theorem lt_next_sequential_id (df : DataFrame) (c : String) (hA : Aligned df) :
    ∀ q ∈ colNumeric df c, q < (next_sequential_id df c : ℚ) := by
  intro q hq
  unfold next_sequential_id
  by_cases hempty : df.rows.isEmpty
  · exfalso
    rw [List.isEmpty_iff] at hempty
    unfold colNumeric at hq
    rw [hempty] at hq
    simp at hq
  by_cases hcol : df.cols.contains c
  · rw [if_neg (by simp_all)]
    unfold colNumeric at hq
    rcases List.mem_filterMap.mp hq with ⟨r, hr, hparse⟩
    have hne : colNumeric df c ≠ [] := by
      unfold colNumeric
      intro hnil
      have : q ∈ ([] : List ℚ) := hnil ▸ hq
      simp at this
    obtain ⟨m, hm⟩ : ∃ m, listMax? (colNumeric df c) = some m := by
      cases h : colNumeric df c with
      | nil => exact absurd h hne
      | cons y t => exact ⟨t.foldl max y, by simp [listMax?]⟩
    rw [hm]
    have hqm : q ≤ m := le_listMax _ q m hq hm
    have := lt_pyInt_add_one m
    push_cast
    linarith
  · exfalso
    rcases List.mem_filterMap.mp hq with ⟨r, hr, hparse⟩
    have hkeys := hA r hr
    have hnk : hasKey r c = false := by
      rcases h : hasKey r c with _ | _
      · rfl
      · exfalso
        have := (hasKey_iff_mem c r).mp h
        rw [hkeys] at this
        exact hcol (by simpa using this)
    rw [getCell_of_not_hasKey c r hnk] at hparse
    simp only [Cell.toNumeric, strToNumeric_empty] at hparse
    exact Option.noConfusion hparse

/-! ## Lemmas about the file-system model -/

theorem tmpPath_ne (p : String) : tmpPath p ≠ p := by
  intro h
  have h2 := congrArg String.length h
  rw [tmpPath, String.length_append] at h2
  have h4 : (".tmp" : String).length = 4 := rfl
  omega

theorem writeFile_at (fs : FileSys) (p : String) (d : FileData) :
    writeFile fs p d p = some d := by
  simp [writeFile]

theorem writeFile_ne (fs : FileSys) (p : String) (d : FileData) (q : String) (h : q ≠ p) :
    writeFile fs p d q = fs q := by
  simp [writeFile, h]

theorem removeFile_ne (fs : FileSys) (p : String) (q : String) (h : q ≠ p) :
    removeFile fs p q = fs q := by
  simp [removeFile, h]

theorem save_csv_at (fs : FileSys) (df : DataFrame) (p : String) :
    save_csv fs df p p = some (serialize df) := by
  unfold save_csv
  rw [removeFile_ne _ _ _ (tmpPath_ne p).symm, writeFile_at]

theorem save_csv_other (fs : FileSys) (df : DataFrame) (p q : String)
    (hq : q ≠ p) (hq' : q ≠ tmpPath p) : save_csv fs df p q = fs q := by
  unfold save_csv
  rw [removeFile_ne _ _ _ hq', writeFile_ne _ _ _ _ hq, writeFile_ne _ _ _ _ hq']

/-! ## Lemmas about seeding -/

theorem seedOne_at (fs : FileSys) (p : String) (df : DataFrame) :
    (seedOne fs p df) p ≠ none := by
  unfold seedOne
  by_cases h : fs p = none
  · rw [if_pos h, save_csv_at]; exact Option.noConfusion
  · rw [if_neg h]; exact h

theorem seedOne_keeps (fs : FileSys) (p : String) (df : DataFrame) (q : String)
    (hq : fs q ≠ none) (hq' : q ≠ tmpPath p) : (seedOne fs p df) q ≠ none := by
  unfold seedOne
  by_cases h : fs p = none
  · rw [if_pos h]
    by_cases hqp : q = p
    · subst hqp; rw [save_csv_at]; exact Option.noConfusion
    · rw [save_csv_other _ _ _ _ hqp hq']; exact hq
  · rw [if_neg h]; exact hq

theorem seedOne_noop (fs : FileSys) (p : String) (df : DataFrame)
    (h : fs p ≠ none) : seedOne fs p df = fs := by
  unfold seedOne
  rw [if_neg h]

/-- After `seed_if_missing`, every one of the seven backing files
exists. -/
theorem seed_if_missing_exists (now : String) (fs : FileSys) :
    (seed_if_missing now fs) F_USUARIOS ≠ none ∧
    (seed_if_missing now fs) F_ACTIVOS ≠ none ∧
    (seed_if_missing now fs) F_NOTIF ≠ none ∧
    (seed_if_missing now fs) F_RONDAS_PLT ≠ none ∧
    (seed_if_missing now fs) F_RONDAS_RUN ≠ none ∧
    (seed_if_missing now fs) F_INCIDENTES ≠ none ∧
    (seed_if_missing now fs) F_PTWOT ≠ none := by
  unfold seed_if_missing
  set s1 := seedOne fs F_USUARIOS usuariosSeed with hs1
  set s2 := seedOne s1 F_ACTIVOS activosSeed with hs2
  set s3 := seedOne s2 F_NOTIF (notifSeed now) with hs3
  set s4 := seedOne s3 F_RONDAS_PLT rondasPltSeed with hs4
  set s5 := seedOne s4 F_RONDAS_RUN rondasRunSeed with hs5
  set s6 := seedOne s5 F_INCIDENTES (incidentesSeed now) with hs6
  refine ⟨?_, ?_, ?_, ?_, ?_, ?_, ?_⟩
  · exact seedOne_keeps _ _ _ _ (seedOne_keeps _ _ _ _ (seedOne_keeps _ _ _ _
      (seedOne_keeps _ _ _ _ (seedOne_keeps _ _ _ _ (seedOne_keeps _ _ _ _
        (seedOne_at fs F_USUARIOS usuariosSeed) (by decide)) (by decide)) (by decide))
      (by decide)) (by decide)) (by decide)
  · exact seedOne_keeps _ _ _ _ (seedOne_keeps _ _ _ _ (seedOne_keeps _ _ _ _
      (seedOne_keeps _ _ _ _ (seedOne_keeps _ _ _ _
        (seedOne_at s1 F_ACTIVOS activosSeed) (by decide)) (by decide)) (by decide))
      (by decide)) (by decide)
  · exact seedOne_keeps _ _ _ _ (seedOne_keeps _ _ _ _ (seedOne_keeps _ _ _ _
      (seedOne_keeps _ _ _ _ (seedOne_at s2 F_NOTIF (notifSeed now)) (by decide))
      (by decide)) (by decide)) (by decide)
  · exact seedOne_keeps _ _ _ _ (seedOne_keeps _ _ _ _ (seedOne_keeps _ _ _ _
      (seedOne_at s3 F_RONDAS_PLT rondasPltSeed) (by decide)) (by decide)) (by decide)
  · exact seedOne_keeps _ _ _ _ (seedOne_keeps _ _ _ _
      (seedOne_at s4 F_RONDAS_RUN rondasRunSeed) (by decide)) (by decide)
  · exact seedOne_keeps _ _ _ _ (seedOne_at s5 F_INCIDENTES (incidentesSeed now)) (by decide)
  · exact seedOne_at s6 F_PTWOT (ptwSeed now)

/-- When every backing file already exists, `seed_if_missing` changes
nothing — regardless of the files' contents. -/
theorem seed_if_missing_noop (now : String) (g : FileSys)
    (h1 : g F_USUARIOS ≠ none) (h2 : g F_ACTIVOS ≠ none) (h3 : g F_NOTIF ≠ none)
    (h4 : g F_RONDAS_PLT ≠ none) (h5 : g F_RONDAS_RUN ≠ none)
    (h6 : g F_INCIDENTES ≠ none) (h7 : g F_PTWOT ≠ none) :
    seed_if_missing now g = g := by
  unfold seed_if_missing
  rw [seedOne_noop _ _ _ h1, seedOne_noop _ _ _ h2, seedOne_noop _ _ _ h3,
     seedOne_noop _ _ _ h4, seedOne_noop _ _ _ h5, seedOne_noop _ _ _ h6,
     seedOne_noop _ _ _ h7]

/-! ## Further lemmas on the maximum and `pyInt` -/

theorem foldl_max_mem (l : List ℚ) : ∀ a, l.foldl max a = a ∨ l.foldl max a ∈ l := by
  induction l with
  | nil => intro a; left; rfl
  | cons x t ih =>
    intro a
    rw [List.foldl_cons]
    rcases ih (max a x) with h | h
    · by_cases hax : a ≤ x
      · right
        rw [h, max_eq_right hax]
        exact List.mem_cons_self x t
      · left
        rw [h, max_eq_left (le_of_not_le hax)]
    · right
      exact List.mem_cons_of_mem x h

theorem listMax_mem (l : List ℚ) (m : ℚ) (hm : listMax? l = some m) : m ∈ l := by
  cases l with
  | nil => simp [listMax?] at hm
  | cons y t =>
    simp only [listMax?, Option.some.injEq] at hm
    subst hm
    rcases foldl_max_mem t y with h | h
    · rw [h]; exact List.mem_cons_self y t
    · exact List.mem_cons_of_mem y h

theorem pyInt_intCast (m : ℤ) : pyInt (m : ℚ) = m := by
  unfold pyInt
  by_cases h : (0 : ℚ) ≤ (m : ℚ)
  · rw [if_pos h, Int.floor_intCast]
  · rw [if_neg h, Int.ceil_intCast]

/-! ## Lemmas about the row updates of the transition handlers -/

theorem hasKey_setCell (c c' : String) (v : Cell) :
    ∀ r : Row, hasKey (setCell r c v) c' = hasKey r c' := by
  intro r
  induction r with
  | nil => rfl
  | cons p t ih =>
    obtain ⟨k, w⟩ := p
    by_cases hk : k = c
    · subst hk
      simp only [setCell, if_pos rfl, hasKey, ih]
    · simp only [setCell, if_neg hk, hasKey, ih]

/-- Any column other than the four the Notificaciones transition can
write is untouched by it. -/
theorem updateNotifRow_getCell_other (nuevo evid now : String) (r : Row) (c : String)
    (h1 : c ≠ "estado") (h2 : c ≠ "ts_recibida") (h3 : c ≠ "ts_cerrada")
    (h4 : c ≠ "evidencia") :
    getCell (updateNotifRow nuevo evid now r) c = getCell r c := by
  simp only [updateNotifRow]
  split_ifs <;>
    (repeat first
      | rw [getCell_setCell_ne "estado" c _ h1]
      | rw [getCell_setCell_ne "ts_recibida" c _ h2]
      | rw [getCell_setCell_ne "ts_cerrada" c _ h3]
      | rw [getCell_setCell_ne "evidencia" c _ h4])

/-- The transition writes the received timestamp only for "Recibida". -/
theorem updateNotifRow_ts_recibida (nuevo evid now : String) (r : Row)
    (h : nuevo ≠ "Recibida") :
    getCell (updateNotifRow nuevo evid now r) "ts_recibida" = getCell r "ts_recibida" := by
  simp only [updateNotifRow]
  rw [if_neg h]
  split_ifs <;>
    (repeat first
      | rw [getCell_setCell_ne "estado" "ts_recibida" _ (by decide)]
      | rw [getCell_setCell_ne "ts_cerrada" "ts_recibida" _ (by decide)]
      | rw [getCell_setCell_ne "evidencia" "ts_recibida" _ (by decide)])

/-- The transition writes the closed timestamp only for "Completada". -/
theorem updateNotifRow_ts_cerrada (nuevo evid now : String) (r : Row)
    (h : nuevo ≠ "Completada") :
    getCell (updateNotifRow nuevo evid now r) "ts_cerrada" = getCell r "ts_cerrada" := by
  simp only [updateNotifRow]
  rw [if_neg h]
  split_ifs <;>
    (repeat first
      | rw [getCell_setCell_ne "estado" "ts_cerrada" _ (by decide)]
      | rw [getCell_setCell_ne "ts_recibida" "ts_cerrada" _ (by decide)]
      | rw [getCell_setCell_ne "evidencia" "ts_cerrada" _ (by decide)])

/-- With an empty evidence string the transition leaves the evidence
field untouched. -/
theorem updateNotifRow_evidencia (nuevo now : String) (r : Row) :
    getCell (updateNotifRow nuevo "" now r) "evidencia" = getCell r "evidencia" := by
  simp only [updateNotifRow]
  rw [if_neg (by simp)]
  split_ifs <;>
    (repeat first
      | rw [getCell_setCell_ne "estado" "evidencia" _ (by decide)]
      | rw [getCell_setCell_ne "ts_recibida" "evidencia" _ (by decide)]
      | rw [getCell_setCell_ne "ts_cerrada" "evidencia" _ (by decide)])

theorem updateNotifRow_id (nuevo evid now : String) (r : Row) :
    getCell (updateNotifRow nuevo evid now r) "id" = getCell r "id" :=
  updateNotifRow_getCell_other nuevo evid now r "id"
    (by decide) (by decide) (by decide) (by decide)

theorem updatePtwRow_id (nuevo aprob now : String) (r : Row) :
    getCell (updatePtwRow nuevo aprob now r) "id" = getCell r "id" := by
  simp only [updatePtwRow]
  split_ifs <;>
    (repeat first
      | rw [getCell_setCell_ne "estado" "id" _ (by decide)]
      | rw [getCell_setCell_ne "aprob_hse" "id" _ (by decide)]
      | rw [getCell_setCell_ne "ts_cierre" "id" _ (by decide)])

/-- Full characterization of the updated row for the "Recibida"
transition with no evidence supplied. -/
theorem updateNotifRow_recibida (now : String) (r : Row)
    (hkey1 : hasKey r "estado" = true) (hkey2 : hasKey r "ts_recibida" = true) :
    getCell (updateNotifRow "Recibida" "" now r) "estado" = Cell.str "Recibida" ∧
    getCell (updateNotifRow "Recibida" "" now r) "ts_recibida" = Cell.str now ∧
    ∀ c : String, c ≠ "estado" → c ≠ "ts_recibida" →
      getCell (updateNotifRow "Recibida" "" now r) c = getCell r c := by
  have hred : updateNotifRow "Recibida" "" now r
      = setCell (setCell r "estado" (Cell.str "Recibida")) "ts_recibida" (Cell.str now) := by
    simp [updateNotifRow]
  rw [hred]
  refine ⟨?_, ?_, ?_⟩
  · rw [getCell_setCell_ne "ts_recibida" "estado" _ (by decide),
       getCell_setCell_self "estado" _ r hkey1]
  · rw [getCell_setCell_self "ts_recibida" _ _ (by rw [hasKey_setCell]; exact hkey2)]
  · intro c h1 h2
    rw [getCell_setCell_ne "ts_recibida" c _ h2, getCell_setCell_ne "estado" c _ h1]

/-- A field of the Notificaciones transition result, seen through the
whole collection: whenever the per-row update preserves column `c`, so
does the collection-level handler, at every position. -/
theorem aplicarCambioNotif_field (fs : FileSys) (df : DataFrame) (sel : ℤ)
    (nuevo evid now : String) (c : String)
    (hfield : ∀ r : Row, getCell (updateNotifRow nuevo evid now r) c = getCell r c)
    (j : ℕ) :
    ((aplicarCambioNotif fs df sel nuevo evid now).1.rows[j]?.map (fun r => getCell r c))
      = df.rows[j]?.map (fun r => getCell r c) := by
  unfold aplicarCambioNotif
  by_cases hany : df.rows.any (fun r => matchesId r sel) = true
  · rw [if_pos hany]
    simp only [List.getElem?_map]
    cases hj : df.rows[j]? with
    | none => rfl
    | some r =>
      simp only [Option.map_some']
      by_cases hm : matchesId r sel = true
      · rw [if_pos hm, hfield r]
      · rw [if_neg hm]
  · rw [if_neg hany]

/-! ## Lemmas about id allocation in the handlers -/

/-- The id cell the Rondas batch constructor places at offset `i`. -/
theorem rondaNewRows_getElem_id (run : DataFrame) (subset : List PlantillaRow)
    (valores : List ℚ) (sel_pl operario now : String)
    (i : ℕ) (h : i < (rondaNewRows run subset valores sel_pl operario now).length) :
    getCell (rondaNewRows run subset valores sel_pl operario now)[i] "id" =
      Cell.num ((next_sequential_id run "id" + i : ℤ) : ℚ) := by
  unfold rondaNewRows at h ⊢
  simp only [List.getElem_map, List.getElem_enum]
  rfl

/-- Appending a row that carries the freshly allocated id preserves id
uniqueness. -/
theorem uniqueIds_appendRow (df : DataFrame) (r : Row) (hA : Aligned df) (hU : UniqueIds df)
    (hid : getCell r "id" = Cell.num ((next_sequential_id df "id" : ℤ) : ℚ)) :
    UniqueIds (appendRow df r) := by
  unfold UniqueIds idCells at hU ⊢
  show ((df.rows ++ [r]).map (fun r0 => getCell r0 "id")).Pairwise (fun a b => a ≠ b)
  rw [List.map_append, List.pairwise_append]
  refine ⟨hU, by simp, ?_⟩
  intro a ha b hb
  simp only [List.map_cons, List.map_nil, List.mem_singleton] at hb
  subst hb
  rw [hid]
  obtain ⟨r0, hr0, rfl⟩ := List.mem_map.mp ha
  cases hc : getCell r0 "id" with
  | num q =>
    intro hEq
    have hq : q = ((next_sequential_id df "id" : ℤ) : ℚ) := Cell.num.inj hEq
    have hmem : q ∈ colNumeric df "id" :=
      List.mem_filterMap.mpr ⟨r0, hr0, by rw [hc]; rfl⟩
    have hlt := lt_next_sequential_id df "id" hA q hmem
    rw [hq] at hlt
    exact lt_irrefl _ hlt
  | str s =>
    intro hEq
    exact Cell.noConfusion hEq
  | bool b0 =>
    intro hEq
    exact Cell.noConfusion hEq

/-- Appending a batch of rows carrying the ids `next + 0 … next + k-1`
preserves id uniqueness. -/
theorem uniqueIds_append_batch (run : DataFrame) (newRows : List Row)
    (hA : Aligned run) (hU : UniqueIds run)
    (hids : ∀ (i : ℕ) (h : i < newRows.length),
      getCell newRows[i] "id" = Cell.num ((next_sequential_id run "id" + i : ℤ) : ℚ)) :
    UniqueIds ⟨run.cols, run.rows ++ newRows⟩ := by
  unfold UniqueIds idCells at hU ⊢
  show ((run.rows ++ newRows).map (fun r0 => getCell r0 "id")).Pairwise (fun a b => a ≠ b)
  rw [List.map_append, List.pairwise_append]
  refine ⟨hU, ?_, ?_⟩
  · rw [List.pairwise_iff_getElem]
    intro i j hi hj hij
    simp only [List.length_map] at hi hj
    simp only [List.getElem_map]
    rw [hids i hi, hids j hj]
    intro hEq
    have h1 : ((next_sequential_id run "id" + i : ℤ) : ℚ)
        = ((next_sequential_id run "id" + j : ℤ) : ℚ) := Cell.num.inj hEq
    have h2 : (next_sequential_id run "id" + i : ℤ)
        = (next_sequential_id run "id" + j : ℤ) := by exact_mod_cast h1
    omega
  · intro a ha b hb
    obtain ⟨r0, hr0, rfl⟩ := List.mem_map.mp ha
    obtain ⟨r1, hr1, rfl⟩ := List.mem_map.mp hb
    obtain ⟨i, hi, rfl⟩ := List.mem_iff_getElem.mp hr1
    rw [hids i hi]
    cases hc : getCell r0 "id" with
    | num q =>
      intro hEq
      have hq : q = ((next_sequential_id run "id" + i : ℤ) : ℚ) := Cell.num.inj hEq
      have hmem : q ∈ colNumeric run "id" :=
        List.mem_filterMap.mpr ⟨r0, hr0, by rw [hc]; rfl⟩
      have hlt := lt_next_sequential_id run "id" hA q hmem
      have hle : ((next_sequential_id run "id" : ℤ) : ℚ) ≤ ((next_sequential_id run "id" + i : ℤ) : ℚ) := by
        push_cast
        have h0 : (0 : ℚ) ≤ (i : ℚ) := by positivity
        linarith
      rw [hq] at hlt
      exact absurd hlt (not_lt.mpr hle)
    | str s =>
      intro hEq
      exact Cell.noConfusion hEq
    | bool b0 =>
      intro hEq
      exact Cell.noConfusion hEq

/-- The Notificaciones transition never touches id cells. -/
theorem idCells_aplicarCambioNotif (fs : FileSys) (df : DataFrame) (sel : ℤ)
    (nuevo evid now : String) :
    idCells (aplicarCambioNotif fs df sel nuevo evid now).1 = idCells df := by
  unfold aplicarCambioNotif
  by_cases hany : df.rows.any (fun r => matchesId r sel) = true
  · rw [if_pos hany]
    unfold idCells
    show (df.rows.map _).map _ = _
    rw [List.map_map]
    apply List.map_congr_left
    intro r hr
    simp only [Function.comp]
    by_cases hm : matchesId r sel = true
    · rw [if_pos hm, updateNotifRow_id]
    · rw [if_neg hm]
  · rw [if_neg hany]

/-- The PTW transition never touches id cells. -/
theorem idCells_aplicarCambioPtw (fs : FileSys) (df : DataFrame) (idp : ℤ)
    (nuevo aprob now : String) :
    idCells (aplicarCambioPtw fs df idp nuevo aprob now).1 = idCells df := by
  unfold aplicarCambioPtw
  by_cases hany : df.rows.any (fun r => matchesId r idp) = true
  · rw [if_pos hany]
    unfold idCells
    show (df.rows.map _).map _ = _
    rw [List.map_map]
    apply List.map_congr_left
    intro r hr
    simp only [Function.comp]
    by_cases hm : matchesId r idp = true
    · rw [if_pos hm, updatePtwRow_id]
    · rw [if_neg hm]
  · rw [if_neg hany]

theorem uniqueIds_of_idCells_eq {df df2 : DataFrame}
    (h : idCells df2 = idCells df) (hU : UniqueIds df) : UniqueIds df2 := by
  unfold UniqueIds at hU ⊢
  rw [h]
  exact hU

/-! ## Claims -/

/-- C1: `save_csv(df, path)` writes the fully serialized collection to
a temporary path (the final path with an added suffix, hence a path
distinct from the final one) and only afterwards renames it over the
final path in a single atomic replace: in every state the save passes
through — including a crash while the temporary file is being written,
which can leave arbitrary bytes `mid` there — the backing file holds
either the complete old contents or the complete new contents, never
missing, truncated, or mixed, given that it previously existed with
valid content. -/
theorem C1_save_csv_atomic_replace (fs : FileSys) (df : DataFrame) (p : String)
    (mid : FileData) (cols : List String) (rows : List Row)
    (hold : fs p = some (FileData.table cols rows)) :
    tmpPath p ≠ p ∧
    ∀ g ∈ save_csv_states fs df p mid,
      g p = some (FileData.table cols rows) ∨ g p = some (serialize df) := by
  refine ⟨tmpPath_ne p, ?_⟩
  intro g hg
  have hne : p ≠ tmpPath p := (tmpPath_ne p).symm
  simp only [save_csv_states, List.mem_cons, List.not_mem_nil, or_false] at hg
  rcases hg with h | h | h | h
  · subst h; left; exact hold
  · subst h; left; rw [writeFile_ne _ _ _ _ hne]; exact hold
  · subst h; left; rw [writeFile_ne _ _ _ _ hne]; exact hold
  · subst h; right; exact save_csv_at fs df p

/-- Witness for C1 at a concrete file system, frame, path, and
mid-write crash content. -/
theorem C1_save_csv_atomic_replace_witness :
    tmpPath F_NOTIF ≠ F_NOTIF ∧
    ∀ g ∈ save_csv_states
        (fun q => if q = F_NOTIF then some (FileData.table notifCols []) else none)
        (notifSeed "2026-10-12 00:00:00") F_NOTIF (FileData.garbage "truncated bytes"),
      g F_NOTIF = some (FileData.table notifCols []) ∨
      g F_NOTIF = some (serialize (notifSeed "2026-10-12 00:00:00")) :=
  C1_save_csv_atomic_replace _ _ _ _ _ _ (by simp)

/-- C6: loading never fails — a missing backing file loads as the
empty collection with no error; a backing file with unparseable
contents produces a warning and the empty collection instead of
failing; and a subsequent `save_csv` on that dataset succeeds and
leaves a valid file that parses back to exactly the saved
collection. (`load_csv` and `safe_read_csv` are total functions of the
file state: the embedding has no failure outcome at all.) -/
theorem C6_load_csv_never_fails :
    (∀ fs p, load_csv (removeFile fs p) p = (DataFrame.emptyDF, false)) ∧
    (∀ fs p s, load_csv (writeFile fs p (FileData.garbage s)) p = (DataFrame.emptyDF, true)) ∧
    (∀ fs p s df,
      (save_csv (writeFile fs p (FileData.garbage s)) df p) p = some (serialize df) ∧
      load_csv (save_csv (writeFile fs p (FileData.garbage s)) df p) p = (df, false)) := by
  refine ⟨?_, ?_, ?_⟩
  · intro fs p
    simp [load_csv, safe_read_csv, removeFile]
  · intro fs p s
    simp [load_csv, safe_read_csv, writeFile, parseCsv]
  · intro fs p s df
    refine ⟨save_csv_at _ _ _, ?_⟩
    rw [load_csv, save_csv_at]
    simp [safe_read_csv, parseCsv, serialize]

/-- C7: `seed_if_missing` writes each of the seven datasets only when
its backing file does not exist, so calling it twice in succession
leaves every backing file identical to its state after the first call;
and once the files exist a further call is a no-op regardless of their
contents (second conjunct: even after the notifications file has been
overwritten with arbitrary contents `d`). -/
theorem C7_seed_if_missing_idempotent (now now2 now3 : String) (fs : FileSys) (d : FileData) :
    seed_if_missing now2 (seed_if_missing now fs) = seed_if_missing now fs ∧
    seed_if_missing now3 (writeFile (seed_if_missing now fs) F_NOTIF d) =
      writeFile (seed_if_missing now fs) F_NOTIF d := by
  obtain ⟨e1, e2, e3, e4, e5, e6, e7⟩ := seed_if_missing_exists now fs
  constructor
  · exact seed_if_missing_noop now2 _ e1 e2 e3 e4 e5 e6 e7
  · apply seed_if_missing_noop
    · rw [writeFile_ne _ _ _ _ (by decide)]; exact e1
    · rw [writeFile_ne _ _ _ _ (by decide)]; exact e2
    · rw [writeFile_at]; exact Option.noConfusion
    · rw [writeFile_ne _ _ _ _ (by decide)]; exact e4
    · rw [writeFile_ne _ _ _ _ (by decide)]; exact e5
    · rw [writeFile_ne _ _ _ _ (by decide)]; exact e6
    · rw [writeFile_ne _ _ _ _ (by decide)]; exact e7

/-- C2: `next_sequential_id` returns 1 when the collection is empty,
when the id column is missing, or when no value of the column parses
as numeric (non-numeric and missing id values are simply ignored, not
errors); otherwise it returns the maximum numeric value of the id
column plus 1; and on a collection whose integer identity column holds
the values 3, 7, 2 it returns 8. -/
theorem C2_next_sequential_id_spec :
    (∀ (df : DataFrame) (c : String), df.rows = [] → next_sequential_id df c = 1) ∧
    (∀ (df : DataFrame) (c : String), c ∉ df.cols → next_sequential_id df c = 1) ∧
    (∀ (df : DataFrame) (c : String), colNumeric df c = [] → next_sequential_id df c = 1) ∧
    (∀ (df : DataFrame) (c : String) (m : ℤ),
      (m : ℚ) ∈ colNumeric df c → (∀ q ∈ colNumeric df c, q ≤ (m : ℚ)) →
      c ∈ df.cols → next_sequential_id df c = m + 1) ∧
    next_sequential_id ⟨["id"], [[("id", Cell.num 3)], [("id", Cell.num 7)], [("id", Cell.num 2)]]⟩ "id" = 8 := by
  refine ⟨?_, ?_, ?_, ?_, ?_⟩
  · intro df c h
    unfold next_sequential_id
    rw [if_pos (by simp [h])]
  · intro df c h
    have hcon : df.cols.contains c = false := by simpa using h
    unfold next_sequential_id
    have hcond : (df.rows.isEmpty || !(df.cols.contains c)) = true := by
      rw [Bool.or_eq_true, Bool.not_eq_true']
      right
      exact hcon
    rw [if_pos hcond]
  · intro df c h
    unfold next_sequential_id
    by_cases he : df.rows.isEmpty || !(df.cols.contains c)
    · rw [if_pos he]
    · rw [if_neg he, h]
      rfl
  · intro df c m hmem hub hc
    have hrows : df.rows ≠ [] := by
      intro hnil
      unfold colNumeric at hmem
      rw [hnil] at hmem
      simp at hmem
    have hcon : df.cols.contains c = true := by simpa using hc
    unfold next_sequential_id
    have hcond : (df.rows.isEmpty || !(df.cols.contains c)) = false := by
      rw [Bool.or_eq_false_iff]
      constructor
      · cases hr : df.rows with
        | nil => exact absurd hr hrows
        | cons a l => rfl
      · rw [Bool.not_eq_false']
        exact hcon
    rw [if_neg (by rw [hcond]; exact Bool.false_ne_true)]
    obtain ⟨mx, hmx⟩ : ∃ mx, listMax? (colNumeric df c) = some mx := by
      cases hl : colNumeric df c with
      | nil => rw [hl] at hmem; simp at hmem
      | cons y t => exact ⟨t.foldl max y, by simp [listMax?]⟩
    rw [hmx]
    have h1 : mx ≤ (m : ℚ) := hub mx (listMax_mem _ _ hmx)
    have h2 : (m : ℚ) ≤ mx := le_listMax _ _ _ hmem hmx
    have heq : mx = (m : ℚ) := le_antisymm h1 h2
    rw [heq]
    show pyInt ((m : ℤ) : ℚ) + 1 = m + 1
    rw [pyInt_intCast]
  · decide

/-- Witness for C2: the max-plus-one branch applied to the concrete
collection with integer ids 3, 7, 2. -/
theorem C2_next_sequential_id_spec_witness :
    next_sequential_id ⟨["id"], [[("id", Cell.num 3)], [("id", Cell.num 7)], [("id", Cell.num 2)]]⟩ "id" = 7 + 1 :=
  C2_next_sequential_id_spec.2.2.2.1
    ⟨["id"], [[("id", Cell.num 3)], [("id", Cell.num 7)], [("id", Cell.num 2)]]⟩ "id" 7
    (by decide) (by decide) (by decide)

/-- C3: on a notification collection whose row at position `i` has
id 2 and status Pendiente (and no other row has id 2), applying the
transition to "Recibida" with no evidence supplied reports success,
sets that row's status to Recibida and its received timestamp to the
(non-empty) current time stamp, and leaves every other field of that
row and every other row of the collection unchanged. -/
theorem C3_transition_recibida (fs : FileSys) (df : DataFrame) (now : String)
    (i : ℕ) (hi : i < df.rows.length)
    (hid : getCell (df.rows.get ⟨i, hi⟩) "id" = Cell.num 2)
    (hestado : getCell (df.rows.get ⟨i, hi⟩) "estado" = Cell.str "Pendiente")
    (hkey1 : hasKey (df.rows.get ⟨i, hi⟩) "estado" = true)
    (hkey2 : hasKey (df.rows.get ⟨i, hi⟩) "ts_recibida" = true)
    (huniq : ∀ (j : ℕ) (hj : j < df.rows.length), j ≠ i →
      matchesId (df.rows.get ⟨j, hj⟩) 2 = false)
    (hnow : now ≠ "") :
    (aplicarCambioNotif fs df 2 "Recibida" "" now).2.2 = true ∧
    (∀ j : ℕ, j ≠ i →
      (aplicarCambioNotif fs df 2 "Recibida" "" now).1.rows[j]? = df.rows[j]?) ∧
    ∃ r2, (aplicarCambioNotif fs df 2 "Recibida" "" now).1.rows[i]? = some r2 ∧
      getCell r2 "estado" = Cell.str "Recibida" ∧
      getCell r2 "ts_recibida" = Cell.str now ∧
      Cell.str now ≠ Cell.str "" ∧
      (∀ c : String, c ≠ "estado" → c ≠ "ts_recibida" →
        getCell r2 c = getCell (df.rows.get ⟨i, hi⟩) c) := by
  have hmatch : matchesId (df.rows.get ⟨i, hi⟩) 2 = true := by
    unfold matchesId
    rw [hid]
    decide
  have hany : df.rows.any (fun r => matchesId r 2) = true := by
    rw [List.any_eq_true]
    exact ⟨df.rows.get ⟨i, hi⟩, List.get_mem df.rows i hi, hmatch⟩
  unfold aplicarCambioNotif
  rw [if_pos hany]
  refine ⟨rfl, ?_, ?_⟩
  · intro j hj
    simp only [List.getElem?_map]
    by_cases hjl : j < df.rows.length
    · rw [List.getElem?_eq_getElem hjl, Option.map_some']
      have : matchesId df.rows[j] 2 = false := huniq j hjl hj
      rw [if_neg (by rw [this]; exact Bool.false_ne_true)]
    · rw [List.getElem?_eq_none (le_of_not_lt hjl)]
      rfl
  · refine ⟨updateNotifRow "Recibida" "" now (df.rows.get ⟨i, hi⟩), ?_, ?_, ?_, ?_, ?_⟩
    · simp only [List.getElem?_map]
      rw [List.getElem?_eq_getElem hi, Option.map_some']
      rw [List.get_eq_getElem] at hmatch
      rw [if_pos hmatch]
      rw [List.get_eq_getElem]
    · exact (updateNotifRow_recibida now _ hkey1 hkey2).1
    · exact (updateNotifRow_recibida now _ hkey1 hkey2).2.1
    · intro hc
      exact hnow (Cell.str.inj hc)
    · exact (updateNotifRow_recibida now _ hkey1 hkey2).2.2

/-- Witness for C3: the seeded notification collection, whose second
row has id 2 and status Pendiente, transitioned to "Recibida". -/
theorem C3_transition_recibida_witness :
    (aplicarCambioNotif (fun _ => none) (notifSeed "t0") 2 "Recibida" "" "2026-10-12 10:00:00").2.2 = true ∧
    (∀ j : ℕ, j ≠ 1 →
      (aplicarCambioNotif (fun _ => none) (notifSeed "t0") 2 "Recibida" "" "2026-10-12 10:00:00").1.rows[j]? = (notifSeed "t0").rows[j]?) ∧
    ∃ r2, (aplicarCambioNotif (fun _ => none) (notifSeed "t0") 2 "Recibida" "" "2026-10-12 10:00:00").1.rows[1]? = some r2 ∧
      getCell r2 "estado" = Cell.str "Recibida" ∧
      getCell r2 "ts_recibida" = Cell.str "2026-10-12 10:00:00" ∧
      Cell.str "2026-10-12 10:00:00" ≠ Cell.str "" ∧
      (∀ c : String, c ≠ "estado" → c ≠ "ts_recibida" →
        getCell r2 c = getCell ((notifSeed "t0").rows.get ⟨1, by decide⟩) c) :=
  C3_transition_recibida (fun _ => none) (notifSeed "t0") "2026-10-12 10:00:00" 1
    (by decide) (by decide) (by decide) (by decide) (by decide)
    (by decide) (by decide)

/-- C4: when no row of the collection carries the requested id, the
status-update operation returns the collection and the backing file
system exactly unchanged and reports "ID no encontrado" (the `false`
flag) instead of silently succeeding — for the Notification transition
and for the Permit transition alike. -/
theorem C4_transition_not_found (fs fs2 : FileSys) (notifs ptwot : DataFrame)
    (sel idp : ℤ) (nuevo evid now nuevo2 aprob now2 : String)
    (h1 : ∀ r ∈ notifs.rows, matchesId r sel = false)
    (h2 : ∀ r ∈ ptwot.rows, matchesId r idp = false) :
    aplicarCambioNotif fs notifs sel nuevo evid now = (notifs, fs, false) ∧
    aplicarCambioPtw fs2 ptwot idp nuevo2 aprob now2 = (ptwot, fs2, false) := by
  constructor
  · have hany : notifs.rows.any (fun r => matchesId r sel) = false := by
      by_contra hc
      rw [Bool.not_eq_false, List.any_eq_true] at hc
      obtain ⟨r, hr, hm⟩ := hc
      rw [h1 r hr] at hm
      exact Bool.false_ne_true hm
    unfold aplicarCambioNotif
    rw [if_neg (by rw [hany]; exact Bool.false_ne_true)]
  · have hany : ptwot.rows.any (fun r => matchesId r idp) = false := by
      by_contra hc
      rw [Bool.not_eq_false, List.any_eq_true] at hc
      obtain ⟨r, hr, hm⟩ := hc
      rw [h2 r hr] at hm
      exact Bool.false_ne_true hm
    unfold aplicarCambioPtw
    rw [if_neg (by rw [hany]; exact Bool.false_ne_true)]

/-- Witness for C4: the seeded notification and permit collections
(ids 1 and 2, resp. 1), asked to transition the absent id 999. -/
theorem C4_transition_not_found_witness :
    aplicarCambioNotif (fun _ => none) (notifSeed "t0") 999 "Recibida" "" "t1"
      = (notifSeed "t0", (fun _ => none), false) ∧
    aplicarCambioPtw (fun _ => none) (ptwSeed "t0") 999 "Aprobado" "Sí" "t1"
      = (ptwSeed "t0", (fun _ => none), false) :=
  C4_transition_not_found _ _ _ _ _ _ _ _ _ _ _ _ (by decide) (by decide)

/-- C9: appending a row to a collection of length N
(`pd.concat([df, pd.DataFrame([row])], ignore_index=True)`, as the
"Crear notificación" handler does) yields a new collection of length
N+1 whose first N rows are the original rows, unchanged and in their
original order, with the new row last; as a pure function of its input
it leaves the input collection value untouched. -/
theorem C9_appendRow_spec (df : DataFrame) (r : Row) :
    (appendRow df r).rows.length = df.rows.length + 1 ∧
    (appendRow df r).rows.take df.rows.length = df.rows ∧
    (appendRow df r).rows.drop df.rows.length = [r] := by
  refine ⟨?_, ?_, ?_⟩
  · simp [appendRow]
  · show (df.rows ++ [r]).take df.rows.length = df.rows
    exact List.take_left df.rows [r]
  · show (df.rows ++ [r]).drop df.rows.length = [r]
    exact List.drop_left df.rows [r]

/-- C10: the notification status transition never clears previously
set optional fields — the received timestamp is written only when the
new status is "Recibida", the closed timestamp only when it is
"Completada", and the evidence field only when the supplied evidence
string is non-empty — so a backwards transition (e.g. Completada →
Pendiente) keeps the old timestamps, and an empty evidence string
leaves any existing evidence value unchanged (evidence cannot be
cleared through this interface). -/
theorem C10_transition_preserves_optional_fields (fs : FileSys) (df : DataFrame)
    (sel : ℤ) (nuevo evid now : String) (j : ℕ) :
    (nuevo ≠ "Recibida" →
      ((aplicarCambioNotif fs df sel nuevo evid now).1.rows[j]?.map (fun r => getCell r "ts_recibida"))
        = df.rows[j]?.map (fun r => getCell r "ts_recibida")) ∧
    (nuevo ≠ "Completada" →
      ((aplicarCambioNotif fs df sel nuevo evid now).1.rows[j]?.map (fun r => getCell r "ts_cerrada"))
        = df.rows[j]?.map (fun r => getCell r "ts_cerrada")) ∧
    (evid = "" →
      ((aplicarCambioNotif fs df sel nuevo evid now).1.rows[j]?.map (fun r => getCell r "evidencia"))
        = df.rows[j]?.map (fun r => getCell r "evidencia")) := by
  refine ⟨?_, ?_, ?_⟩
  · intro h
    exact aplicarCambioNotif_field fs df sel nuevo evid now "ts_recibida"
      (fun r => updateNotifRow_ts_recibida nuevo evid now r h) j
  · intro h
    exact aplicarCambioNotif_field fs df sel nuevo evid now "ts_cerrada"
      (fun r => updateNotifRow_ts_cerrada nuevo evid now r h) j
  · intro h
    subst h
    exact aplicarCambioNotif_field fs df sel nuevo "" now "evidencia"
      (fun r => updateNotifRow_evidencia nuevo now r) j

/-- Witness for C10: a backwards transition to "Pendiente" with empty
evidence on the seeded collection, checked at row 1: neither
timestamp nor the evidence field changes. -/
theorem C10_transition_preserves_optional_fields_witness :
    ((aplicarCambioNotif (fun _ => none) (notifSeed "t0") 2 "Pendiente" "" "t1").1.rows[1]?.map (fun r => getCell r "ts_recibida"))
        = (notifSeed "t0").rows[1]?.map (fun r => getCell r "ts_recibida") ∧
    ((aplicarCambioNotif (fun _ => none) (notifSeed "t0") 2 "Pendiente" "" "t1").1.rows[1]?.map (fun r => getCell r "ts_cerrada"))
        = (notifSeed "t0").rows[1]?.map (fun r => getCell r "ts_cerrada") ∧
    ((aplicarCambioNotif (fun _ => none) (notifSeed "t0") 2 "Pendiente" "" "t1").1.rows[1]?.map (fun r => getCell r "evidencia"))
        = (notifSeed "t0").rows[1]?.map (fun r => getCell r "evidencia") :=
  ⟨(C10_transition_preserves_optional_fields (fun _ => none) (notifSeed "t0") 2 "Pendiente" "" "t1" 1).1 (by decide),
   (C10_transition_preserves_optional_fields (fun _ => none) (notifSeed "t0") 2 "Pendiente" "" "t1" 1).2.1 (by decide),
   (C10_transition_preserves_optional_fields (fun _ => none) (notifSeed "t0") 2 "Pendiente" "" "t1" 1).2.2 rfl⟩

/-- C5: in a round-execution submission of a batch of template rows,
the id assigned to the batch row at offset `i` equals
`next_sequential_id(rondas_run, "id") + i`, where `next_sequential_id`
is computed from the round-execution collection as loaded at
submission time. -/
theorem C5_ronda_batch_ids (run : DataFrame) (subset : List PlantillaRow)
    (valores : List ℚ) (sel_pl operario now : String)
    (i : ℕ) (h : i < (rondaNewRows run subset valores sel_pl operario now).length) :
    getCell (rondaNewRows run subset valores sel_pl operario now)[i] "id" =
      Cell.num ((next_sequential_id run "id" + i : ℤ) : ℚ) :=
  rondaNewRows_getElem_id run subset valores sel_pl operario now i h

/-- Witness for C5: a two-row batch over the seeded (empty)
round-execution collection; the row at offset 1 receives id
`next_sequential_id + 1`. -/
theorem C5_ronda_batch_ids_witness :
    getCell ((rondaNewRows rondasRunSeed
        [⟨"K-301", "Presión succión [bar]", 2, 5⟩, ⟨"K-301", "Temperatura carcasa [°C]", 20, 80⟩]
        [3, 100] "Ronda Compresores" "Operario 1" "t1").get ⟨1, by decide⟩) "id" =
      Cell.num ((next_sequential_id rondasRunSeed "id" + 1 : ℤ) : ℚ) :=
  C5_ronda_batch_ids rondasRunSeed
    [⟨"K-301", "Presión succión [bar]", 2, 5⟩, ⟨"K-301", "Temperatura carcasa [°C]", 20, 80⟩]
    [3, 100] "Ronda Compresores" "Operario 1" "t1" 1 (by decide)

/-- C8: starting from any well-formed collection with unique ids, each
create handler assigns exactly the id `next_sequential_id` returns
(max numeric id plus one, or 1 on an empty / column-less /
non-numeric collection — the behaviour claim C2 characterizes), every
numeric id already present is strictly below the assigned id
(monotonicity), and id uniqueness is preserved by every create —
Notificación, Incidente, PTW, and the Rondas batch — and by both
status transitions, which touch no id cell at all. -/
theorem C8_ids_unique_and_monotonic (fs : FileSys) (df run : DataFrame)
    (hA : Aligned df) (hU : UniqueIds df) (hAr : Aligned run) (hUr : UniqueIds run)
    (now tag titulo motivo prioridad asignado severidad descripcion reportado
      tipo solicitante area nuevo evid aprob : String)
    (subset : List PlantillaRow) (valores : List ℚ) (sel_pl operario : String)
    (sel : ℤ) :
    (crearNotificacion fs df now tag titulo motivo prioridad asignado).2.2
        = next_sequential_id df "id" ∧
    (reportarIncidente fs df now tag titulo severidad descripcion reportado).2.2
        = next_sequential_id df "id" ∧
    (crearPtw fs df now tipo solicitante area).2.2 = next_sequential_id df "id" ∧
    (∀ q ∈ colNumeric df "id",
      q < ((crearNotificacion fs df now tag titulo motivo prioridad asignado).2.2 : ℚ)) ∧
    UniqueIds (crearNotificacion fs df now tag titulo motivo prioridad asignado).1 ∧
    UniqueIds (reportarIncidente fs df now tag titulo severidad descripcion reportado).1 ∧
    UniqueIds (crearPtw fs df now tipo solicitante area).1 ∧
    UniqueIds (guardarRonda fs run subset valores sel_pl operario now).1 ∧
    idCells (aplicarCambioNotif fs df sel nuevo evid now).1 = idCells df ∧
    UniqueIds (aplicarCambioNotif fs df sel nuevo evid now).1 ∧
    idCells (aplicarCambioPtw fs df sel nuevo aprob now).1 = idCells df ∧
    UniqueIds (aplicarCambioPtw fs df sel nuevo aprob now).1 := by
  refine ⟨rfl, rfl, rfl, ?_, ?_, ?_, ?_, ?_, ?_, ?_, ?_, ?_⟩
  · exact lt_next_sequential_id df "id" hA
  · exact uniqueIds_appendRow df _ hA hU rfl
  · exact uniqueIds_appendRow df _ hA hU rfl
  · exact uniqueIds_appendRow df _ hA hU rfl
  · simp only [guardarRonda]
    by_cases h : (rondaNewRows run subset valores sel_pl operario now).isEmpty
    · rw [if_pos h]
      exact hUr
    · rw [if_neg h]
      exact uniqueIds_append_batch run _ hAr hUr
        (fun i hi => rondaNewRows_getElem_id run subset valores sel_pl operario now i hi)
  · exact idCells_aplicarCambioNotif fs df sel nuevo evid now
  · exact uniqueIds_of_idCells_eq (idCells_aplicarCambioNotif fs df sel nuevo evid now) hU
  · exact idCells_aplicarCambioPtw fs df sel nuevo aprob now
  · exact uniqueIds_of_idCells_eq (idCells_aplicarCambioPtw fs df sel nuevo aprob now) hU

/-- Witness for C8 at the seeded notification collection (ids 1 and 2)
and the seeded, empty round-execution collection. -/
theorem C8_ids_unique_and_monotonic_witness :
    (crearNotificacion (fun _ => none) (notifSeed "t") "t" "V-210" "ti" "mo" "P1" "Operario 1").2.2
        = next_sequential_id (notifSeed "t") "id" ∧
    (reportarIncidente (fun _ => none) (notifSeed "t") "t" "V-210" "ti" "Medio" "de" "Operario 1").2.2
        = next_sequential_id (notifSeed "t") "id" ∧
    (crearPtw (fun _ => none) (notifSeed "t") "t" "Trabajo caliente" "Supervisor 1" "Área B").2.2
        = next_sequential_id (notifSeed "t") "id" ∧
    (∀ q ∈ colNumeric (notifSeed "t") "id",
      q < ((crearNotificacion (fun _ => none) (notifSeed "t") "t" "V-210" "ti" "mo" "P1" "Operario 1").2.2 : ℚ)) ∧
    UniqueIds (crearNotificacion (fun _ => none) (notifSeed "t") "t" "V-210" "ti" "mo" "P1" "Operario 1").1 ∧
    UniqueIds (reportarIncidente (fun _ => none) (notifSeed "t") "t" "V-210" "ti" "Medio" "de" "Operario 1").1 ∧
    UniqueIds (crearPtw (fun _ => none) (notifSeed "t") "t" "Trabajo caliente" "Supervisor 1" "Área B").1 ∧
    UniqueIds (guardarRonda (fun _ => none) rondasRunSeed [⟨"TK-1203", "Nivel [%]", 10, 85⟩] [50] "Ronda Tanques" "Operario 1" "t").1 ∧
    idCells (aplicarCambioNotif (fun _ => none) (notifSeed "t") 2 "Aprobado" "" "t").1 = idCells (notifSeed "t") ∧
    UniqueIds (aplicarCambioNotif (fun _ => none) (notifSeed "t") 2 "Aprobado" "" "t").1 ∧
    idCells (aplicarCambioPtw (fun _ => none) (notifSeed "t") 2 "Aprobado" "Sí" "t").1 = idCells (notifSeed "t") ∧
    UniqueIds (aplicarCambioPtw (fun _ => none) (notifSeed "t") 2 "Aprobado" "Sí" "t").1 :=
  C8_ids_unique_and_monotonic (fun _ => none) (notifSeed "t") rondasRunSeed
    (by decide) (by decide) (by decide) (by decide)
    "t" "V-210" "ti" "mo" "P1" "Operario 1" "Medio" "de" "Operario 1"
    "Trabajo caliente" "Supervisor 1" "Área B" "Aprobado" "" "Sí"
    [⟨"TK-1203", "Nivel [%]", 10, 85⟩] [50] "Ronda Tanques" "Operario 1" 2

end FFCC
